import Mathlib

/-!
Verification of the M-Pesa STK-push donation payment subsystem of the
Donation-Platform backend.

The Python sources embedded here (shallowly) are:
  * `app/services/payment_service.py`  — token cache, STK push, callback parsing
  * `app/services/donation_service.py` — orchestrator and callback reconciler
  * `app/routes/donations_api.py`      — phone normalisation, initiation and
                                          status-polling routes
  * `app/routes/payment.py`            — provider-facing callback route
  * `app/models/donation.py`           — the `Donation` ledger row
  * `app/utils/mpesa.py`               — `MpesaClient._normalize_phone`

JSON-shaped dynamic Python values are modelled by `PyVal`; Python exceptions
by `PyExn` through `Except`; the database session by explicit `List Donation`
state passing.  Machine time is modelled as integer epoch seconds.
-/

/-- A dynamic Python value of the shapes produced by `request.get_json` /
`resp.json()`: `None`, booleans, integers, strings, lists and
string-keyed dicts.  (Floats do not occur in the payloads this subsystem
manipulates and are not modelled.) -/
inductive PyVal where
  | none
  | bool (b : Bool)
  | int (n : Int)
  | str (s : String)
  | list (xs : List PyVal)
  | dict (entries : List (String × PyVal))
  deriving Repr, Inhabited

/-- Python exceptions that the embedded code can raise. -/
inductive PyExn where
  | attributeError
  | typeError
  | valueError (msg : String)
  | runtimeError (msg : String)
  deriving Repr, DecidableEq

namespace PyVal

mutual

/-- Structural equality test on `PyVal` (Python `==` restricted to the
value shapes we model; list/dict compare pointwise). -/
def beq : PyVal → PyVal → Bool
  | .none, .none => true
  | .bool a, .bool b => a == b
  | .int a, .int b => a == b
  | .str a, .str b => a == b
  | .list xs, .list ys => beqList xs ys
  | .dict xs, .dict ys => beqEntries xs ys
  | _, _ => false

/-- Pointwise equality on lists of `PyVal`. -/
def beqList : List PyVal → List PyVal → Bool
  | [], [] => true
  | x :: xs, y :: ys => beq x y && beqList xs ys
  | _, _ => false

/-- Pointwise equality on dict entry lists. -/
def beqEntries : List (String × PyVal) → List (String × PyVal) → Bool
  | [], [] => true
  | (k, v) :: xs, (l, w) :: ys => k == l && beq v w && beqEntries xs ys
  | _, _ => false

end

instance : BEq PyVal := ⟨beq⟩

/-- Python truthiness: `None`, `False`, `0`, `""`, `[]`, `{}` are falsy. -/
def truthy : PyVal → Bool
  | .none => false
  | .bool b => b
  | .int n => n != 0
  | .str s => s ≠ ""
  | .list xs => !xs.isEmpty
  | .dict es => !es.isEmpty

/-- Python `isinstance(v, dict)`. -/
def isDict : PyVal → Bool
  | .dict _ => true
  | _ => false

/-- Python `x == n` against an `int` literal (`True == 1`, `False == 0`). -/
def eqInt (v : PyVal) (n : Int) : Bool :=
  match v with
  | .int m => m == n
  | .bool b => (if b then (1 : Int) else 0) == n
  | _ => false

/-- Python `v.get(key, default)`: succeeds on a dict, raises
`AttributeError` on every other value (no `.get` attribute). -/
def get (v : PyVal) (key : String) (default : PyVal) : Except PyExn PyVal :=
  match v with
  | .dict es =>
    match es.find? (fun e => e.1 == key) with
    | some e => .ok e.2
    | Option.none => .ok default
  | _ => .error .attributeError

/-- Python `v.get(key)` (default `None`). -/
def getOpt (v : PyVal) (key : String) : Except PyExn PyVal :=
  v.get key .none

/-- Python `for x in v`: lists iterate their elements, strings their
one-character substrings, dicts their keys; other values raise
`TypeError` (not iterable). -/
def iter : PyVal → Except PyExn (List PyVal)
  | .list xs => .ok xs
  | .str s => .ok (s.data.map (fun c => .str c.toString))
  | .dict es => .ok (es.map (fun e => .str e.1))
  | _ => .error .typeError

/-- Python `str(v)` (only the cases the embedded code reaches). -/
def toStr : PyVal → String
  | .none => "None"
  | .bool b => if b then "True" else "False"
  | .int n => toString n
  | .str s => s
  | .list _ => "[...]"
  | .dict _ => "{...}"

end PyVal

/-- `v` if it is present (non-`None`), else `default` — the effect of
Python `d.get(key, default)` under the absent-key ≡ `None` conflation the
embedding uses for parsed-callback fields. -/
def PyVal.defaultIfNone (v default : PyVal) : PyVal :=
  match v with
  | .none => default
  | w => w

/-- Python `a or b`: `a` if truthy, else `b`. -/
def PyVal.pyOr (a b : PyVal) : PyVal :=
  if a.truthy then a else b

/-! ## `app/models/donation.py` — the Donation ledger row -/

/-- `DonationStatus` constants from `app/models/donation.py`. -/
inductive DonationStatus where
  | PENDING
  | SUCCESS
  | FAILED
  deriving Repr, DecidableEq

/-- A row of the `donations` table.  Nullable text columns that the M-Pesa
flow fills from dynamic payload values are `PyVal` (with `.none` for SQL
NULL); timestamps are integer epoch seconds. -/
structure Donation where
  id : Nat
  amount : Int
  donor_id : Nat
  charity_id : Nat
  is_anonymous : Bool := false
  is_recurring : Bool := false
  message : Option String := Option.none
  phone_number : Option String := Option.none
  status : DonationStatus := .PENDING
  checkout_request_id : PyVal := .none
  merchant_request_id : PyVal := .none
  mpesa_receipt_number : PyVal := .none
  failure_reason : PyVal := .none
  created_at : Int := 0
  updated_at : Int := 0
  deriving Repr

/-- `Donation.__init__`: rejects a non-positive amount with `ValueError`,
otherwise yields the row. -/
def Donation.make (d : Donation) : Except PyExn Donation :=
  if d.amount ≤ 0 then .error (.valueError "Donation amount must be positive")
  else .ok d

/-- `db.session` state: the list of committed donation rows. -/
abbrev Ledger := List Donation

/-- Replace the row with the given id (a `session.commit()` of a mutated
ORM object); all other rows are untouched. -/
def replaceById (db : Ledger) (i : Nat) (d' : Donation) : Ledger :=
  db.map (fun d => if d.id = i then d' else d)

/-- `Donation.query.get(donation_id)`. -/
def getDonation (db : Ledger) (donation_id : Nat) : Option Donation :=
  db.find? (fun d => d.id == donation_id)

/-- `Donation.query.filter_by(checkout_request_id=...).first()` for a
string checkout id (the route path parameter). -/
def getDonationByCheckout (db : Ledger) (checkout_id : String) : Option Donation :=
  db.find? (fun d => d.checkout_request_id == PyVal.str checkout_id)

/-! ## `app/services/payment_service.py` — callback parsing -/

/-- The dict returned by `PaymentService.parse_stk_callback`.  A field
whose key is absent from the Python dict is `.none` (the conflation is
sound: every consumer reads fields with `dict.get`, which returns `None`
for an absent key). -/
structure ParsedCallback where
  success : Bool
  checkout_request_id : PyVal := .none
  merchant_request_id : PyVal := .none
  result_code : PyVal := .none
  result_desc : PyVal := .none
  error : PyVal := .none
  mpesa_receipt_number : PyVal := .none
  amount : PyVal := .none
  phone_number : PyVal := .none
  transaction_date : PyVal := .none
  deriving Repr

/-- `meta[k] = v` on the Python metadata dict built in
`parse_stk_callback` (replace an existing key, else append). -/
def metaInsert (m : List (PyVal × PyVal)) (k v : PyVal) : List (PyVal × PyVal) :=
  if m.any (fun e => PyVal.beq e.1 k) then
    m.map (fun e => if PyVal.beq e.1 k then (e.1, v) else e)
  else m ++ [(k, v)]

/-- `meta.get(k)` on the metadata dict (string key, default `None`). -/
def metaGet (m : List (PyVal × PyVal)) (k : String) : PyVal :=
  match m.find? (fun e => PyVal.beq e.1 (.str k)) with
  | some e => e.2
  | Option.none => .none

/-- `meta.get(k, default)` on the metadata dict. -/
def metaGetD (m : List (PyVal × PyVal)) (k : String) (default : PyVal) : PyVal :=
  match m.find? (fun e => PyVal.beq e.1 (.str k)) with
  | some e => e.2
  | Option.none => default

/-- `PaymentService.parse_stk_callback`.  The `try`/`except
(AttributeError, TypeError)` in the source covers ONLY the
`callback_data.get("Body", {}).get("stkCallback", {})` extraction; every
later attribute access (`body.get(...)`, metadata iteration) is outside
it, so its exceptions propagate to the caller. -/
def parse_stk_callback (callback_data : PyVal) : Except PyExn ParsedCallback :=
  match (do
      let b ← callback_data.get "Body" (.dict [])
      b.get "stkCallback" (.dict [])) with
  | .error _ => .ok { success := false, error := .str "Malformed callback payload" }
  | .ok body => do
    let result_code ← body.getOpt "ResultCode"
    let checkout_id ← body.getOpt "CheckoutRequestID"
    let merchant_id ← body.getOpt "MerchantRequestID"
    let result_desc ← body.get "ResultDesc" (.str "")
    if result_code.eqInt 0 then do
      let metadata ← body.get "CallbackMetadata" (.dict [])
      let itemsVal ← metadata.get "Item" (.list [])
      let items ← itemsVal.iter
      let meta ← items.foldlM (fun m item => do
          let name ← item.getOpt "Name"
          let value ← item.getOpt "Value"
          pure (metaInsert m name value)) ([] : List (PyVal × PyVal))
      pure { success := true,
             checkout_request_id := checkout_id,
             merchant_request_id := merchant_id,
             result_code := result_code,
             result_desc := result_desc,
             mpesa_receipt_number := metaGet meta "MpesaReceiptNumber",
             amount := metaGet meta "Amount",
             phone_number := .str (metaGetD meta "PhoneNumber" (.str "")).toStr,
             transaction_date := .str (metaGetD meta "TransactionDate" (.str "")).toStr }
    else
      pure { success := false,
             checkout_request_id := checkout_id,
             merchant_request_id := merchant_id,
             result_code := result_code,
             result_desc := result_desc,
             error := result_desc.pyOr (.str "Payment was not completed") }

/-! ## `app/services/donation_service.py` — reconciler and orchestrator -/

/-- The dict returned by `DonationService.process_stk_callback`
(field absent from the returned dict ≡ the default). -/
structure CallbackResult where
  success : Bool
  error : Option String := Option.none
  already_processed : Bool := false
  donation_id : Option Nat := Option.none
  donation_status : Option DonationStatus := Option.none
  mpesa_receipt_number : PyVal := .none
  deriving Repr

/-- `DonationService.process_stk_callback`: parse the payload, look the
donation up by `checkout_request_id`, and perform the idempotent
transition to SUCCESS or FAILED.  `now` is the commit time (the ORM's
`onupdate` fills `updated_at`).  Returns the result dict together with
the resulting ledger. -/
def process_stk_callback (db : Ledger) (now : Int) (callback_data : PyVal) :
    Except PyExn (CallbackResult × Ledger) :=
  match parse_stk_callback callback_data with
  | .error e => .error e    -- an uncaught exception from the parser propagates
  | .ok parsed =>
  let checkout_id := parsed.checkout_request_id
  if checkout_id.truthy then
    match db.find? (fun d => d.checkout_request_id == checkout_id) with
    | Option.none =>
      .ok ({ success := false, error := some "No matching donation found" }, db)
    | some donation =>
      -- Idempotency — skip if already finalised
      if donation.status = .SUCCESS ∨ donation.status = .FAILED then
        .ok ({ success := true, already_processed := true,
                  donation_id := some donation.id,
                  donation_status := some donation.status }, db)
      else
        let d' :=
          if parsed.success then
            { donation with status := .SUCCESS,
                            mpesa_receipt_number := parsed.mpesa_receipt_number,
                            updated_at := now }
          else
            { donation with status := .FAILED,
                            failure_reason :=
                              parsed.error.defaultIfNone (.str "Payment was not completed"),
                            updated_at := now }
        .ok ({ success := true, donation_id := some d'.id,
                  donation_status := some d'.status,
                  mpesa_receipt_number := d'.mpesa_receipt_number },
                replaceById db donation.id d')
  else
    .ok ({ success := false, error := some "Missing CheckoutRequestID in callback" }, db)

/-- The outcome of `PaymentService.initiate_stk_push` (an external HTTP
exchange; modelled as an input to the orchestrator).  On success the dict
carries the provider-assigned correlation ids (`result.get(...)`, hence
possibly `None`). -/
structure StkResult where
  success : Bool
  checkout_request_id : PyVal := .none
  merchant_request_id : PyVal := .none
  response_description : String := ""
  customer_message : String := ""
  error : Option String := Option.none
  deriving Repr

/-- The dict returned by `DonationService.initiate_mpesa_donation` on
success. -/
structure InitiateOk where
  donation : Donation
  checkout_request_id : PyVal
  customer_message : String
  deriving Repr

/-- `DonationService.initiate_mpesa_donation`.  `stk` is the outcome of
the provider call (fired only after the amount guard); the middle `Bool`
of the result reports whether that provider call was made.  The
`account_reference`/`transaction_desc` arguments only feed the provider
request and are omitted. -/
def initiate_mpesa_donation (stk : StkResult) (db : Ledger) (nextId : Nat) (now : Int)
    (donor_id charity_id : Nat) (amount_kes : Int) (phone_number : String)
    (is_anonymous : Bool) (message : Option String) :
    Except PyExn InitiateOk × Bool × Ledger :=
  if amount_kes ≤ 0 then
    (.error (.valueError "Amount must be a positive number"), false, db)
  else
    -- Store amount in cents for consistency with existing data
    let amount_cents := amount_kes * 100
    -- Fire STK Push first so we fail fast before creating a DB row
    if stk.success then
      let row : Donation :=
        { id := nextId, amount := amount_cents,
          donor_id := donor_id, charity_id := charity_id,
          phone_number := some phone_number, status := .PENDING,
          checkout_request_id := stk.checkout_request_id,
          merchant_request_id := stk.merchant_request_id,
          is_anonymous := is_anonymous, message := message,
          created_at := now, updated_at := now }
      match Donation.make row with
      | .error e => (.error e, true, db)
      | .ok donation =>
        (.ok { donation := donation, checkout_request_id := stk.checkout_request_id,
               customer_message := stk.customer_message }, true, db ++ [donation])
    else
      (.error (.valueError (stk.error.getD "STK Push initiation failed")), true, db)

/-- `DonationService.create_donation`: the simple flow without a payment
gateway; the row is created with `status=SUCCESS` immediately. -/
def create_donation (db : Ledger) (nextId : Nat) (now : Int)
    (donor_id charity_id : Nat) (amount_cents : Int)
    (is_anonymous is_recurring : Bool) (message : Option String) :
    Except PyExn (Donation × Ledger) :=
  let row : Donation :=
    { id := nextId, amount := amount_cents,
      donor_id := donor_id, charity_id := charity_id,
      is_anonymous := is_anonymous, is_recurring := is_recurring,
      message := message, status := .SUCCESS,
      created_at := now, updated_at := now }
  match Donation.make row with
  | .error e => .error e
  | .ok donation => .ok (donation, db ++ [donation])

/-! ## `app/services/payment_service.py` — OAuth token cache -/

/-- The module-level `_token_cache` dict. -/
structure TokenCache where
  access_token : PyVal := .none
  expires_at : Int := 0
  deriving Repr

/-- The parsed JSON of the Daraja OAuth endpoint response
(`access_token` and `expires_in` fields; a non-integer `expires_in`
value is not modelled). -/
structure OAuthResponse where
  access_token : PyVal := .none
  expires_in : Option Int := Option.none
  deriving Repr

/-- `PaymentService.get_mpesa_access_token`.  `http` is the outcome of
the credential-exchange request (`requests.get` + `raise_for_status` +
`.json()`; `.error msg` is a `requests.RequestException`).  Returns the
result, the resulting cache and whether the HTTP call was performed. -/
def get_mpesa_access_token (cache : TokenCache) (now : Int)
    (consumer_key consumer_secret : String)
    (http : Except String OAuthResponse) :
    Except PyExn PyVal × TokenCache × Bool :=
  -- Return cached token if still valid (with 60 s buffer)
  if cache.access_token.truthy ∧ cache.expires_at - 60 > now then
    (.ok cache.access_token, cache, false)
  else if consumer_key = "" ∨ consumer_secret = "" then
    (.error (.runtimeError "MPESA_CONSUMER_KEY and MPESA_CONSUMER_SECRET must be set"),
     cache, false)
  else
    match http with
    | .error exc =>
      (.error (.runtimeError ("Failed to obtain M-Pesa access token: " ++ exc)), cache, true)
    | .ok data =>
      let token := data.access_token
      let expires_in := data.expires_in.getD 3599
      if token.truthy then
        (.ok token, { access_token := token, expires_at := now + expires_in }, true)
      else
        (.error (.runtimeError "Daraja response did not contain an access_token"), cache, true)

/-! ## Phone normalisation

The character classes below are the CPython 3.11 ones, transcribed as
code-point ranges from the interpreter's Unicode tables: `ws` is what
`str.strip()` removes, `reDigit` is what the regex `\d` matches
(Unicode category Nd), and `isdigitChar` is what `str.isdigit()`
accepts (Nd plus Numeric_Type=Digit characters such as superscripts and
circled digits). -/

/-- Code-point membership in a list of inclusive ranges. -/
def inRanges (rs : List (Nat × Nat)) (c : Char) : Bool :=
  rs.any (fun r => r.1 ≤ c.toNat && c.toNat ≤ r.2)

/-- Code points removed by Python `str.strip()` (`str.isspace()`). -/
def pySpaceRanges : List (Nat × Nat) :=
  [(0x9, 0xD), (0x1C, 0x20), (0x85, 0x85), (0xA0, 0xA0), (0x1680, 0x1680),
   (0x2000, 0x200A), (0x2028, 0x2029), (0x202F, 0x202F), (0x205F, 0x205F),
   (0x3000, 0x3000)]

/-- Python whitespace (`str.isspace()`). -/
def pySpace (c : Char) : Bool :=
  inRanges pySpaceRanges c

/-- Code points matched by the regex `\d` (Unicode category Nd). -/
def reDigitRanges : List (Nat × Nat) :=
  [(0x30, 0x39), (0x660, 0x669), (0x6F0, 0x6F9), (0x7C0, 0x7C9),
   (0x966, 0x96F), (0x9E6, 0x9EF), (0xA66, 0xA6F), (0xAE6, 0xAEF),
   (0xB66, 0xB6F), (0xBE6, 0xBEF), (0xC66, 0xC6F), (0xCE6, 0xCEF),
   (0xD66, 0xD6F), (0xDE6, 0xDEF), (0xE50, 0xE59), (0xED0, 0xED9),
   (0xF20, 0xF29), (0x1040, 0x1049), (0x1090, 0x1099), (0x17E0, 0x17E9),
   (0x1810, 0x1819), (0x1946, 0x194F), (0x19D0, 0x19D9), (0x1A80, 0x1A89),
   (0x1A90, 0x1A99), (0x1B50, 0x1B59), (0x1BB0, 0x1BB9), (0x1C40, 0x1C49),
   (0x1C50, 0x1C59), (0xA620, 0xA629), (0xA8D0, 0xA8D9), (0xA900, 0xA909),
   (0xA9D0, 0xA9D9), (0xA9F0, 0xA9F9), (0xAA50, 0xAA59), (0xABF0, 0xABF9),
   (0xFF10, 0xFF19), (0x104A0, 0x104A9), (0x10D30, 0x10D39),
   (0x11066, 0x1106F), (0x110F0, 0x110F9), (0x11136, 0x1113F),
   (0x111D0, 0x111D9), (0x112F0, 0x112F9), (0x11450, 0x11459),
   (0x114D0, 0x114D9), (0x11650, 0x11659), (0x116C0, 0x116C9),
   (0x11730, 0x11739), (0x118E0, 0x118E9), (0x11950, 0x11959),
   (0x11C50, 0x11C59), (0x11D50, 0x11D59), (0x11DA0, 0x11DA9),
   (0x16A60, 0x16A69), (0x16AC0, 0x16AC9), (0x16B50, 0x16B59),
   (0x1D7CE, 0x1D7FF), (0x1E140, 0x1E149), (0x1E2F0, 0x1E2F9),
   (0x1E950, 0x1E959), (0x1FBF0, 0x1FBF9)]

/-- The regex class `\d` (Unicode decimal digit). -/
def reDigit (c : Char) : Bool :=
  inRanges reDigitRanges c

/-- Code points accepted by Python `str.isdigit()`. -/
def isdigitRanges : List (Nat × Nat) :=
  [(0x30, 0x39), (0xB2, 0xB3), (0xB9, 0xB9), (0x660, 0x669), (0x6F0, 0x6F9),
   (0x7C0, 0x7C9), (0x966, 0x96F), (0x9E6, 0x9EF), (0xA66, 0xA6F),
   (0xAE6, 0xAEF), (0xB66, 0xB6F), (0xBE6, 0xBEF), (0xC66, 0xC6F),
   (0xCE6, 0xCEF), (0xD66, 0xD6F), (0xDE6, 0xDEF), (0xE50, 0xE59),
   (0xED0, 0xED9), (0xF20, 0xF29), (0x1040, 0x1049), (0x1090, 0x1099),
   (0x1369, 0x1371), (0x17E0, 0x17E9), (0x1810, 0x1819), (0x1946, 0x194F),
   (0x19D0, 0x19DA), (0x1A80, 0x1A89), (0x1A90, 0x1A99), (0x1B50, 0x1B59),
   (0x1BB0, 0x1BB9), (0x1C40, 0x1C49), (0x1C50, 0x1C59), (0x2070, 0x2070),
   (0x2074, 0x2079), (0x2080, 0x2089), (0x2460, 0x2468), (0x2474, 0x247C),
   (0x2488, 0x2490), (0x24EA, 0x24EA), (0x24F5, 0x24FD), (0x24FF, 0x24FF),
   (0x2776, 0x277E), (0x2780, 0x2788), (0x278A, 0x2792), (0xA620, 0xA629),
   (0xA8D0, 0xA8D9), (0xA900, 0xA909), (0xA9D0, 0xA9D9), (0xA9F0, 0xA9F9),
   (0xAA50, 0xAA59), (0xABF0, 0xABF9), (0xFF10, 0xFF19), (0x104A0, 0x104A9),
   (0x10A40, 0x10A43), (0x10D30, 0x10D39), (0x10E60, 0x10E68),
   (0x11052, 0x1105A), (0x11066, 0x1106F), (0x110F0, 0x110F9),
   (0x11136, 0x1113F), (0x111D0, 0x111D9), (0x112F0, 0x112F9),
   (0x11450, 0x11459), (0x114D0, 0x114D9), (0x11650, 0x11659),
   (0x116C0, 0x116C9), (0x11730, 0x11739), (0x118E0, 0x118E9),
   (0x11950, 0x11959), (0x11C50, 0x11C59), (0x11D50, 0x11D59),
   (0x11DA0, 0x11DA9), (0x16A60, 0x16A69), (0x16AC0, 0x16AC9),
   (0x16B50, 0x16B59), (0x1D7CE, 0x1D7FF), (0x1E140, 0x1E149),
   (0x1E2F0, 0x1E2F9), (0x1E950, 0x1E959), (0x1F100, 0x1F10A),
   (0x1FBF0, 0x1FBF9)]

/-- A character accepted by Python `str.isdigit()`. -/
def isdigitChar (c : Char) : Bool :=
  inRanges isdigitRanges c

/-- Python `s.strip()` over the character list. -/
def stripChars (s : List Char) : List Char :=
  ((s.dropWhile pySpace).reverse.dropWhile pySpace).reverse

/-- Python `s.replace(c, "")`: delete every occurrence of a single
character. -/
def deleteChar (c : Char) (s : List Char) : List Char :=
  s.filter (fun x => x ≠ c)

/-- Python `s.isdigit()`: non-empty and every character in the
`isdigit` class. -/
def pyIsDigit (cs : List Char) : Bool :=
  !cs.isEmpty && cs.all isdigitChar

/-- The `_PHONE_RE` test `re.match(r"^254\d{9}$", s)` of
`app/routes/donations_api.py`.  `$` matches at the end of the string or
just before one trailing newline, so the regex also accepts
`254` + 9 digits + `"\n"` (13 characters). -/
def phoneRegexMatch (cs : List Char) : Bool :=
  cs.take 3 == ['2', '5', '4'] &&
    ((cs.length == 12 && (cs.drop 3).all reDigit) ||
     (cs.length == 13 && ((cs.drop 3).take 9).all reDigit && cs.drop 12 == ['\n']))

/-- `_normalise_phone` from `app/routes/donations_api.py`: `str(raw)`,
strip, drop spaces and hyphens, strip one leading `+`, map a leading `0`
to `254`, then gate on `^254\d{9}$`. -/
def _normalise_phone (raw : PyVal) : Option String :=
  let r0 := deleteChar '-' (deleteChar ' ' (stripChars raw.toStr.data))
  let r1 := match r0 with
            | '+' :: rest => rest
            | _ => r0
  let r2 := match r1 with
            | '0' :: rest => '2' :: '5' :: '4' :: rest
            | _ => r1
  if phoneRegexMatch r2 then some (String.mk r2) else Option.none

/-- `MpesaClient._normalize_phone` from `app/utils/mpesa.py`. -/
def mpesa_normalize_phone (phone : String) : Option String :=
  if phone = "" then Option.none
  else
    let clean :=
      deleteChar ')' (deleteChar '(' (deleteChar '-' (deleteChar ' ' (stripChars phone.data))))
    let handled : Option (List Char) :=
      match clean with
      | '+' :: '2' :: '5' :: '4' :: rest => some ('2' :: '5' :: '4' :: rest)
      | '0' :: rest => some ('2' :: '5' :: '4' :: rest)
      | '2' :: '5' :: '4' :: rest => some ('2' :: '5' :: '4' :: rest)
      | _ => Option.none
    match handled with
    | Option.none => Option.none
    | some c =>
      if c.length == 12 && c.take 3 == ['2', '5', '4'] && pyIsDigit (c.drop 3) then
        some (String.mk c)
      else Option.none

/-! ## Route layer (`app/routes/donations_api.py`, `app/routes/payment.py`) -/

/-- The slice of a `Charity` row the donation flow reads. -/
structure Charity where
  id : Nat
  name : String
  is_active : Bool
  deriving Repr

/-- `Charity.query.get` keyed by an id taken from the JSON body. -/
def getCharity (charities : List Charity) (charity_id : PyVal) : Option Charity :=
  match charity_id with
  | .int n => charities.find? (fun c => (c.id : Int) == n)
  | _ => Option.none

/-- `donation.charity` (relationship lookup by `charity_id`). -/
def donationCharity (charities : List Charity) (d : Donation) : Option Charity :=
  charities.find? (fun c => c.id == d.charity_id)

/-- The status column value as stored (the `DonationStatus` string
constants). -/
def DonationStatus.toPy : DonationStatus → PyVal
  | .PENDING => .str "PENDING"
  | .SUCCESS => .str "SUCCESS"
  | .FAILED => .str "FAILED"

/-- An HTTP response: status code and JSON body. -/
abbrev HttpResponse := Nat × PyVal

/-- `error_response` from `app/errors/responses.py` (message always
passed non-empty here, so the `if message` branch adds it). -/
def error_response (status_code : Nat) (error message : String) : HttpResponse :=
  if message ≠ "" then
    (status_code, .dict [("error", .str error), ("message", .str message)])
  else
    (status_code, .dict [("error", .str error)])

/-- `bad_request` helper. -/
def bad_request (message : String) : HttpResponse :=
  error_response 400 "Bad request" message

/-- `not_found` helper. -/
def not_found (message : String) : HttpResponse :=
  error_response 404 "Not found" message

/-- An `Option String` column as JSON. -/
def optStr : Option String → PyVal
  | some s => .str s
  | Option.none => .none

/-- `GET /api/donations/<id>/status` (`get_donation_status`).
The response's `amount_kes` field (`amount / 100`, a Python float) is
elided: floats are outside the value model and no claim reads it. -/
def get_donation_status_route (db : Ledger) (charities : List Charity)
    (user_id : Nat) (donation_id : Nat) : HttpResponse :=
  match getDonation db donation_id with
  | Option.none => not_found "Donation not found"
  | some donation =>
    if donation.donor_id ≠ user_id then not_found "Donation not found"
    else
      (200, .dict
        [("id", .int donation.id),
         ("status", donation.status.toPy),
         ("mpesa_receipt_number", donation.mpesa_receipt_number),
         ("amount", .int donation.amount),
         ("charity_name",
          match donationCharity charities donation with
          | some c => .str c.name
          | Option.none => .none)])

/-- `GET /api/donations/status/<checkout_id>`
(`get_donation_status_by_checkout`).  `amount_kes` elided as above;
`created_at.isoformat()` is modelled as the raw timestamp value. -/
def get_donation_status_by_checkout_route (db : Ledger) (charities : List Charity)
    (user_id : Nat) (checkout_id : String) : HttpResponse :=
  match getDonationByCheckout db checkout_id with
  | Option.none => not_found "Donation not found"
  | some donation =>
    -- Verify ownership
    if donation.donor_id ≠ user_id then not_found "Donation not found"
    else
      (200, .dict
        [("id", .int donation.id),
         ("status", donation.status.toPy),
         ("mpesa_receipt_number", donation.mpesa_receipt_number),
         ("amount", .int donation.amount),
         ("charity_name",
          match donationCharity charities donation with
          | some c => .str c.name
          | Option.none => .none),
         ("created_at", .int donation.created_at),
         ("failure_reason", donation.failure_reason)])

/-- `POST /payments/callback` (`mpesa_callback` with the
`verify_safaricom_callback` decorator).  `ipAllowed` is the decorator's
IP check; `body` is `request.get_json(silent=True)` (`Option.none` for an
absent or unparseable body); `now` is the processing time. -/
def mpesa_callback_route (ipAllowed : Bool) (body : Option PyVal)
    (db : Ledger) (now : Int) : HttpResponse × Ledger :=
  let accepted : HttpResponse :=
    (200, .dict [("ResultCode", .int 0), ("ResultDesc", .str "Accepted")])
  if ipAllowed then
    match body with
    | Option.none => (accepted, db)
    | some callback_data =>
      if callback_data.truthy && callback_data.isDict then
        match process_stk_callback db now callback_data with
        | .error _ => (accepted, db)
        | .ok (_, db') => (accepted, db')
      else (accepted, db)
  else
    -- Still return 200 to avoid retry storms, but log the attempt
    (accepted, db)

/-- `Donation.to_dict()` (default `include_donor=False`, so `donor_id`
is omitted; the float field `amount_kes` is elided as above). -/
def Donation.to_dict (d : Donation) (charities : List Charity) : PyVal :=
  .dict
    [("id", .int d.id),
     ("amount", .int d.amount),
     ("charity_id", .int d.charity_id),
     ("charity_name",
      match donationCharity charities d with
      | some c => .str c.name
      | Option.none => .none),
     ("is_anonymous", .bool d.is_anonymous),
     ("is_recurring", .bool d.is_recurring),
     ("message", optStr d.message),
     ("status", d.status.toPy),
     ("phone_number", optStr d.phone_number),
     ("checkout_request_id", d.checkout_request_id),
     ("mpesa_receipt_number", d.mpesa_receipt_number),
     ("created_at", .int d.created_at),
     ("updated_at", .int d.updated_at)]

/-- Outcome of Python `float(amount)` followed by the
whole-number comparison `amount_num != int(amount_num)`:
either an integral value, a non-integral number (with its sign), or a
conversion failure (`ValueError`/`TypeError`). -/
inductive FloatCheck where
  | whole (n : Int)
  | fractional (pos : Bool)
  | notNumeric
  deriving Repr, DecidableEq

/-- Digits to a natural number. -/
def digitsToNat (cs : List Char) : Nat :=
  cs.foldl (fun a c => a * 10 + (c.toNat - '0'.toNat)) 0

/-- `float(s)` on a string followed by the integrality test: optional
sign, digits, optional fractional part. -/
def parseNumChars (cs : List Char) : FloatCheck :=
  let t := stripChars cs
  let (neg, u) :=
    match t with
    | '-' :: r => (true, r)
    | '+' :: r => (false, r)
    | _ => (false, t)
  if !u.isEmpty && u.all Char.isDigit then
    .whole ((if neg then (-1 : Int) else 1) * (digitsToNat u : Int))
  else
    match u.splitOn '.' with
    | [a, b] =>
      if (!a.isEmpty && a.all Char.isDigit) && (!b.isEmpty && b.all Char.isDigit) then
        if b.all (fun c => c = '0') then
          .whole ((if neg then (-1 : Int) else 1) * (digitsToNat a : Int))
        else .fractional (!neg)
      else .notNumeric
    | _ => .notNumeric

/-- `float(amount)` + integrality test on a JSON value (floats in the
payload itself are outside the value model). -/
def pyFloatCheck : PyVal → FloatCheck
  | .int n => .whole n
  | .bool b => .whole (if b then 1 else 0)
  | .str s => parseNumChars s.data
  | _ => .notNumeric

/-- Python `v.strip()`: a string method — `AttributeError` on any other
value. -/
def PyVal.pyStrip : PyVal → Except PyExn String
  | .str s => .ok (String.mk (stripChars s.data))
  | _ => .error .attributeError

/-- Result of the initiation route: the HTTP response (or an uncaught
exception, which the framework turns into a 500), whether the provider
call was fired, and the resulting ledger. -/
structure RouteResult where
  resp : Except PyExn HttpResponse
  providerCalled : Bool := false
  db : Ledger
  deriving Repr

/-- `POST /api/donations/mpesa` (`initiate_mpesa_donation` view).
`data` is `request.get_json()` (`.none` for an absent body); `stk` the
outcome of the provider call, fired only when control reaches the
service.  The `account_reference` computed from the charity name only
feeds the provider request and is omitted. -/
def initiate_mpesa_donation_route (user_id : Nat) (data : PyVal)
    (charities : List Charity) (mpesa_configured : Bool) (stk : StkResult)
    (db : Ledger) (nextId : Nat) (now : Int) : RouteResult :=
  if ¬data.truthy then
    { resp := .ok (bad_request "Request body is required"), db := db }
  else
    match data.getOpt "charity_id" with
    | .error e => { resp := .error e, db := db }
    | .ok charity_id =>
    match data.getOpt "amount" with
    | .error e => { resp := .error e, db := db }
    | .ok amount =>
    match data.getOpt "phone_number" with
    | .error e => { resp := .error e, db := db }
    | .ok phone_raw =>
    if ¬(charity_id.truthy && amount.truthy && phone_raw.truthy) then
      { resp := .ok (bad_request "charity_id, amount, and phone_number are required"),
        db := db }
    else
      match pyFloatCheck amount with
      | .notNumeric => { resp := .ok (bad_request "Invalid amount"), db := db }
      | .fractional pos =>
        if ¬pos then
          { resp := .ok (bad_request "Amount must be positive"), db := db }
        else
          { resp := .ok (bad_request "Amount must be a whole number (KES, no decimals)"),
            db := db }
      | .whole amount_num =>
        if amount_num ≤ 0 then
          { resp := .ok (bad_request "Amount must be positive"), db := db }
        else
          match _normalise_phone phone_raw with
          | Option.none =>
            { resp := .ok (bad_request
                "Invalid phone number. Use format 254XXXXXXXXX or 07XXXXXXXX"),
              db := db }
          | some phone =>
            match getCharity charities charity_id with
            | Option.none =>
              { resp := .ok (not_found "Charity not found or inactive"), db := db }
            | some charity =>
              if ¬charity.is_active then
                { resp := .ok (not_found "Charity not found or inactive"), db := db }
              else if ¬mpesa_configured then
                { resp := .ok (503, .dict
                    [("error", .str "Service unavailable"),
                     ("message", .str
                       "M-Pesa payments are not configured on this server. Please contact the administrator.")]),
                  db := db }
              else
                match (do
                    let msgV ← data.get "message" (.str "")
                    let stripped ← msgV.pyStrip
                    let anonV ← data.get "is_anonymous" (.bool false)
                    pure (stripped, anonV)) with
                | .error e => { resp := .error e, db := db }
                | .ok (stripped, anonV) =>
                  let message := if stripped ≠ "" then some stripped else Option.none
                  let r := initiate_mpesa_donation stk db nextId now user_id charity.id
                              amount_num phone anonV.truthy message
                  match r.1 with
                  | .ok ok =>
                    { resp := .ok (200, .dict
                        [("message", .str "STK Push sent. Check your phone to complete payment."),
                         ("donation", ok.donation.to_dict charities),
                         ("checkout_request_id", ok.checkout_request_id),
                         ("customer_message", .str ok.customer_message)]),
                      providerCalled := r.2.1, db := r.2.2 }
                  | .error (.valueError m) =>
                    { resp := .ok (bad_request m), providerCalled := r.2.1, db := r.2.2 }
                  | .error e =>
                    { resp := .error e, providerCalled := r.2.1, db := r.2.2 }

/-- Key lookup on a JSON response body. -/
def jsonGet (v : PyVal) (k : String) : Option PyVal :=
  match v with
  | .dict es => (es.find? (fun e => e.1 == k)).map (fun e => e.2)
  | _ => Option.none

/-! ## Concrete fixtures used by witnesses -/

/-- A PENDING ledger row awaiting its callback. -/
def pendingSample : Donation :=
  { id := 1, amount := 50000, donor_id := 7, charity_id := 9,
    phone_number := some "254712345678", status := .PENDING,
    checkout_request_id := .str "ws_CO_1", merchant_request_id := .str "m_1",
    created_at := 100, updated_at := 100 }

/-- A ledger row already finalised as SUCCESS. -/
def successSample : Donation :=
  { pendingSample with status := .SUCCESS, mpesa_receipt_number := .str "ABC123" }

/-- A ledger row already finalised as FAILED. -/
def failedSample : Donation :=
  { pendingSample with
    status := .FAILED
    failure_reason := .str "Request cancelled by user" }

/-- A successful provider callback for `ws_CO_1` carrying receipt
`ABC123`. -/
def cbSuccess : PyVal :=
  .dict [("Body", .dict [("stkCallback", .dict
    [("MerchantRequestID", .str "m_1"),
     ("CheckoutRequestID", .str "ws_CO_1"),
     ("ResultCode", .int 0),
     ("ResultDesc", .str "The service request is processed successfully."),
     ("CallbackMetadata", .dict [("Item", .list
       [.dict [("Name", .str "Amount"), ("Value", .int 500)],
        .dict [("Name", .str "MpesaReceiptNumber"), ("Value", .str "ABC123")],
        .dict [("Name", .str "PhoneNumber"), ("Value", .int 254712345678)]])])])])]

/-- A failed provider callback (`ResultCode=1`) for `ws_CO_1`. -/
def cbFailure : PyVal :=
  .dict [("Body", .dict [("stkCallback", .dict
    [("MerchantRequestID", .str "m_1"),
     ("CheckoutRequestID", .str "ws_CO_1"),
     ("ResultCode", .int 1),
     ("ResultDesc", .str "Request cancelled by user")])])]

/-- A successful provider-initiation outcome. -/
def stkOkSample : StkResult :=
  { success := true, checkout_request_id := .str "ws_CO_1",
    merchant_request_id := .str "m_1",
    customer_message := "Success. Request accepted for processing" }

/-- A sample active charity. -/
def charitySample : Charity := { id := 9, name := "SheNeeds", is_active := true }

example :
    (process_stk_callback [pendingSample] 200 cbSuccess).map
        (fun r => (r.1.success, r.1.donation_status, r.1.mpesa_receipt_number)) =
      .ok (true, some .SUCCESS, .str "ABC123") := rfl

example :
    (process_stk_callback [pendingSample] 200 cbFailure).map
        (fun r => ((r.2.map Donation.status), (r.2.map Donation.failure_reason))) =
      .ok ([DonationStatus.FAILED], [PyVal.str "Request cancelled by user"]) := rfl

example : PyVal.truthy (.str "") = false := by decide
example : (PyVal.dict [("a", .none)]).get "a" (.dict []) = .ok .none := rfl
example : (PyVal.int 3).get "a" .none = .error .attributeError := rfl
example : PyVal.eqInt (.bool false) 0 = true := by decide
example : _normalise_phone (.str "0712345678") = some "254712345678" := by decide
example : _normalise_phone (.str "+254 712-345678") = some "254712345678" := by decide
example : _normalise_phone (.str "0712 34567") = Option.none := by decide
example : mpesa_normalize_phone "0712345678" = some "254712345678" := by decide
example : mpesa_normalize_phone "(0712) 345-678" = some "254712345678" := by decide
example : mpesa_normalize_phone "712345678" = Option.none := by decide
example : _normalise_phone (.str "0712345678\n\n-") = Option.none := by decide
example : mpesa_normalize_phone "0٣٣٣٣٣٣٣٣٣" = some "254٣٣٣٣٣٣٣٣٣" := by decide
example : mpesa_normalize_phone "0712345678\n" = some "254712345678" := by decide

/-! ## Helper lemmas about the reconciler -/

/-- On a PENDING row, a successfully-parsed success callback commits the
SUCCESS transition with the parsed receipt. -/
theorem process_pending_success_eq
    (db : Ledger) (now : Int) (cb : PyVal) (p : ParsedCallback) (d : Donation)
    (hp : parse_stk_callback cb = .ok p)
    (ht : p.checkout_request_id.truthy = true)
    (hf : db.find? (fun x => x.checkout_request_id == p.checkout_request_id) = some d)
    (hpend : d.status = .PENDING)
    (hs : p.success = true) :
    process_stk_callback db now cb =
      .ok ({ success := true, donation_id := some d.id,
             donation_status := some .SUCCESS,
             mpesa_receipt_number := p.mpesa_receipt_number },
           replaceById db d.id
             { d with status := .SUCCESS,
                      mpesa_receipt_number := p.mpesa_receipt_number,
                      updated_at := now }) := by
  unfold process_stk_callback
  rw [hp]
  simp [Except.bind, ht, hf, hpend, hs, pure, Except.pure]

/-- On a PENDING row, a successfully-parsed failure callback commits the
FAILED transition with the parsed (or default) failure reason. -/
theorem process_pending_failure_eq
    (db : Ledger) (now : Int) (cb : PyVal) (p : ParsedCallback) (d : Donation)
    (hp : parse_stk_callback cb = .ok p)
    (ht : p.checkout_request_id.truthy = true)
    (hf : db.find? (fun x => x.checkout_request_id == p.checkout_request_id) = some d)
    (hpend : d.status = .PENDING)
    (hs : p.success = false) :
    process_stk_callback db now cb =
      .ok ({ success := true, donation_id := some d.id,
             donation_status := some .FAILED,
             mpesa_receipt_number := d.mpesa_receipt_number },
           replaceById db d.id
             { d with status := .FAILED,
                      failure_reason :=
                        p.error.defaultIfNone (.str "Payment was not completed"),
                      updated_at := now }) := by
  unfold process_stk_callback
  rw [hp]
  simp [Except.bind, ht, hf, hpend, hs, pure, Except.pure]

/-! ## Claim theorems -/

/-- C1: for every donation whose status is already SUCCESS or FAILED,
any invocation of `process_stk_callback` whose payload carries that
donation's `checkout_request_id` returns a success result with
`already_processed=true` and the current status, and leaves the ledger
(and hence every field of the donation) unchanged; in particular a later
non-zero-result callback for a SUCCESS donation leaves it SUCCESS. -/
theorem callback_on_terminal_donation_is_noop
    (db : Ledger) (now : Int) (cb : PyVal) (p : ParsedCallback) (d : Donation)
    (hp : parse_stk_callback cb = .ok p)
    (ht : p.checkout_request_id.truthy = true)
    (hf : db.find? (fun x => x.checkout_request_id == p.checkout_request_id) = some d)
    (hterm : d.status = .SUCCESS ∨ d.status = .FAILED) :
    process_stk_callback db now cb =
      .ok ({ success := true, already_processed := true,
             donation_id := some d.id, donation_status := some d.status }, db) := by
  unfold process_stk_callback
  rw [hp]
  simp [ht, hf, hterm]

/-- Witness for C1: a donation already SUCCESS receives a failure
callback (`ResultCode=1`) for its own checkout id; the reconciler
reports `already_processed` with the standing SUCCESS status and the
ledger is unchanged. -/
theorem callback_on_terminal_donation_is_noop_witness :
    process_stk_callback [successSample] 300 cbFailure =
      .ok ({ success := true, already_processed := true,
             donation_id := some 1, donation_status := some .SUCCESS },
           [successSample]) :=
  callback_on_terminal_donation_is_noop [successSample] 300 cbFailure
    { success := false, checkout_request_id := .str "ws_CO_1",
      merchant_request_id := .str "m_1", result_code := .int 1,
      result_desc := .str "Request cancelled by user",
      error := .str "Request cancelled by user" }
    successSample rfl rfl rfl (Or.inl rfl)

/-- C4 (failing input): with payload `{"Body": {"stkCallback": 42}}`
the `try`/`except` in `parse_stk_callback` succeeds (the nested `.get`
chain returns `42`), and the subsequent `body.get("ResultCode")` —
outside the `try` — raises `AttributeError`, which propagates out of
`process_stk_callback` instead of the soft `MalformedCallback` result
the specification requires. -/
theorem process_stk_callback_raises_on_nondict_stkCallback :
    process_stk_callback [] 0 (.dict [("Body", .dict [("stkCallback", .int 42)])])
      = .error .attributeError := rfl

/-- C5: every request to `POST /payments/callback` — disallowed source
IP, empty or non-dict body, processing error, or normal processing —
is answered `200 {ResultCode: 0, ResultDesc: "Accepted"}`. -/
theorem mpesa_callback_always_accepts
    (ipAllowed : Bool) (body : Option PyVal) (db : Ledger) (now : Int) :
    (mpesa_callback_route ipAllowed body db now).1 =
      (200, .dict [("ResultCode", .int 0), ("ResultDesc", .str "Accepted")]) := by
  unfold mpesa_callback_route
  cases ipAllowed with
  | false => rfl
  | true =>
    cases body with
    | none => rfl
    | some callback_data =>
      by_cases h : (callback_data.truthy && callback_data.isDict) = true
      · simp only [h, if_true]
        cases process_stk_callback db now callback_data with
        | error e => rfl
        | ok r => rfl
      · simp only [Bool.not_eq_true] at h
        simp only [h]
        rfl

/-- C10: when a callback is processed against a PENDING donation, the
reconciler changes only `status`, `mpesa_receipt_number` (on success),
`failure_reason` (on failure) and `updated_at`; `amount`, `donor_id`,
`charity_id`, `phone_number`, `checkout_request_id`,
`merchant_request_id`, `is_anonymous`, `is_recurring`, `message` and
`created_at` are unchanged, every other ledger row is untouched, and in
particular the `Amount`/`PhoneNumber` values of the callback metadata
are never written to the row. -/
theorem callback_frame_property
    (db : Ledger) (now : Int) (cb : PyVal) (p : ParsedCallback) (d : Donation)
    (hp : parse_stk_callback cb = .ok p)
    (ht : p.checkout_request_id.truthy = true)
    (hf : db.find? (fun x => x.checkout_request_id == p.checkout_request_id) = some d)
    (hpend : d.status = .PENDING) :
    ∃ d', process_stk_callback db now cb =
        .ok ({ success := true, donation_id := some d'.id,
               donation_status := some d'.status,
               mpesa_receipt_number := d'.mpesa_receipt_number },
             replaceById db d.id d')
      ∧ d'.id = d.id ∧ d'.amount = d.amount ∧ d'.donor_id = d.donor_id
      ∧ d'.charity_id = d.charity_id ∧ d'.phone_number = d.phone_number
      ∧ d'.checkout_request_id = d.checkout_request_id
      ∧ d'.merchant_request_id = d.merchant_request_id
      ∧ d'.is_anonymous = d.is_anonymous ∧ d'.is_recurring = d.is_recurring
      ∧ d'.message = d.message ∧ d'.created_at = d.created_at
      ∧ d'.updated_at = now
      ∧ (p.success = true →
          d'.status = .SUCCESS
            ∧ d'.mpesa_receipt_number = p.mpesa_receipt_number
            ∧ d'.failure_reason = d.failure_reason)
      ∧ (p.success = false →
          d'.status = .FAILED
            ∧ d'.mpesa_receipt_number = d.mpesa_receipt_number
            ∧ d'.failure_reason =
                p.error.defaultIfNone (.str "Payment was not completed")) := by
  cases hs : p.success with
  | true =>
    refine ⟨{ d with
              status := .SUCCESS
              mpesa_receipt_number := p.mpesa_receipt_number
              updated_at := now },
            process_pending_success_eq db now cb p d hp ht hf hpend hs, ?_⟩
    simp [hs]
  | false =>
    refine ⟨{ d with
              status := .FAILED
              failure_reason := p.error.defaultIfNone (.str "Payment was not completed")
              updated_at := now },
            process_pending_failure_eq db now cb p d hp ht hf hpend hs, ?_⟩
    simp [hs]

/-- Witness for C10: the success callback for the sample PENDING
donation updates only the allowed fields. -/
theorem callback_frame_property_witness :
    ∃ d', process_stk_callback [pendingSample] 200 cbSuccess =
        .ok ({ success := true, donation_id := some d'.id,
               donation_status := some d'.status,
               mpesa_receipt_number := d'.mpesa_receipt_number },
             replaceById [pendingSample] pendingSample.id d')
      ∧ d'.id = pendingSample.id ∧ d'.amount = pendingSample.amount
      ∧ d'.donor_id = pendingSample.donor_id
      ∧ d'.charity_id = pendingSample.charity_id
      ∧ d'.phone_number = pendingSample.phone_number
      ∧ d'.checkout_request_id = pendingSample.checkout_request_id
      ∧ d'.merchant_request_id = pendingSample.merchant_request_id
      ∧ d'.is_anonymous = pendingSample.is_anonymous
      ∧ d'.is_recurring = pendingSample.is_recurring
      ∧ d'.message = pendingSample.message
      ∧ d'.created_at = pendingSample.created_at ∧ d'.updated_at = 200
      ∧ (true = true →
          d'.status = .SUCCESS
            ∧ d'.mpesa_receipt_number = PyVal.str "ABC123"
            ∧ d'.failure_reason = pendingSample.failure_reason)
      ∧ (true = false →
          d'.status = .FAILED
            ∧ d'.mpesa_receipt_number = pendingSample.mpesa_receipt_number
            ∧ d'.failure_reason = PyVal.str "Payment was not completed") :=
  callback_frame_property [pendingSample] 200 cbSuccess
    { success := true, checkout_request_id := .str "ws_CO_1",
      merchant_request_id := .str "m_1", result_code := .int 0,
      result_desc := .str "The service request is processed successfully.",
      mpesa_receipt_number := .str "ABC123", amount := .int 500,
      phone_number := .str "254712345678", transaction_date := .str "" }
    pendingSample rfl rfl rfl rfl

/-- C3: `initiate_mpesa_donation` creates a ledger row iff the provider
call succeeds: a non-positive amount raises before the provider call and
creates no row; a provider-reported failure raises that error and
creates no row; on provider success exactly one PENDING row carrying the
provider's `checkout_request_id`/`merchant_request_id` is appended. -/
theorem initiate_creates_row_iff_provider_success
    (stk : StkResult) (db : Ledger) (nextId : Nat) (now : Int)
    (donor_id charity_id : Nat) (amount_kes : Int) (phone : String)
    (is_anonymous : Bool) (message : Option String) :
    (amount_kes ≤ 0 →
      initiate_mpesa_donation stk db nextId now donor_id charity_id amount_kes
          phone is_anonymous message
        = (.error (.valueError "Amount must be a positive number"), false, db))
  ∧ (0 < amount_kes → stk.success = false →
      initiate_mpesa_donation stk db nextId now donor_id charity_id amount_kes
          phone is_anonymous message
        = (.error (.valueError (stk.error.getD "STK Push initiation failed")), true, db))
  ∧ (0 < amount_kes → stk.success = true →
      ∃ d, initiate_mpesa_donation stk db nextId now donor_id charity_id amount_kes
          phone is_anonymous message
        = (.ok { donation := d, checkout_request_id := stk.checkout_request_id,
                 customer_message := stk.customer_message }, true, db ++ [d])
        ∧ d.status = .PENDING
        ∧ d.checkout_request_id = stk.checkout_request_id
        ∧ d.merchant_request_id = stk.merchant_request_id
        ∧ d.amount = amount_kes * 100
        ∧ d.donor_id = donor_id ∧ d.charity_id = charity_id
        ∧ d.mpesa_receipt_number = .none ∧ d.failure_reason = .none) := by
  refine ⟨?_, ?_, ?_⟩
  · intro hle
    unfold initiate_mpesa_donation
    simp [hle]
  · intro hpos hfail
    unfold initiate_mpesa_donation
    rw [if_neg (by omega)]
    simp [hfail]
  · intro hpos hsucc
    refine ⟨{ id := nextId, amount := amount_kes * 100,
              donor_id := donor_id, charity_id := charity_id,
              phone_number := some phone, status := .PENDING,
              checkout_request_id := stk.checkout_request_id,
              merchant_request_id := stk.merchant_request_id,
              is_anonymous := is_anonymous, message := message,
              created_at := now, updated_at := now }, ?_, rfl, rfl, rfl, rfl, rfl, rfl, rfl, rfl⟩
    unfold initiate_mpesa_donation
    rw [if_neg (by omega)]
    simp only [hsucc, if_true]
    unfold Donation.make
    rw [if_neg (by simp; omega)]

/-- Witness for C3: with the sample provider success, amount 500 KES
creates the PENDING row; the theorem's success conjunct is instantiated
concretely. -/
theorem initiate_creates_row_iff_provider_success_witness :
    ∃ d, initiate_mpesa_donation stkOkSample [] 1 100 7 9 500
        "254712345678" false Option.none
      = (.ok { donation := d, checkout_request_id := stkOkSample.checkout_request_id,
               customer_message := stkOkSample.customer_message }, true, [] ++ [d])
      ∧ d.status = .PENDING
      ∧ d.checkout_request_id = stkOkSample.checkout_request_id
      ∧ d.merchant_request_id = stkOkSample.merchant_request_id
      ∧ d.amount = 500 * 100
      ∧ d.donor_id = 7 ∧ d.charity_id = 9
      ∧ d.mpesa_receipt_number = .none ∧ d.failure_reason = .none :=
  (initiate_creates_row_iff_provider_success stkOkSample [] 1 100 7 9 500
      "254712345678" false Option.none).2.2 (by decide) rfl

/-- `defaultIfNone` with a string default is never `None`. -/
theorem defaultIfNone_str_ne_none (v : PyVal) (s : String) :
    v.defaultIfNone (.str s) ≠ .none := by
  cases v <;> simp [PyVal.defaultIfNone]

/-- C2 (counterexample): `create_donation` — the simple flow cited by
the claim — creates a row whose status is SUCCESS (≠ PENDING) with
`mpesa_receipt_number` and `failure_reason` both absent, violating
"exactly one of the two is present once status ≠ PENDING". -/
theorem create_donation_success_with_neither_field :
    (create_donation [] 1 0 7 9 5000 false false Option.none).map
        (fun r => (r.1.status, r.1.mpesa_receipt_number, r.1.failure_reason)) =
      .ok (.SUCCESS, .none, .none) := rfl

/-- C2 (amended): rows created by the M-Pesa initiation flow start
PENDING with neither `mpesa_receipt_number` nor `failure_reason`
present; the reconciler sets `mpesa_receipt_number` only on the
transition to SUCCESS (to the parsed metadata value, which may itself be
null) and sets `failure_reason` — always non-null — only on the
transition to FAILED; `create_donation` (the simple no-gateway flow)
creates SUCCESS rows with neither field present. -/
theorem receipt_and_failure_reason_field_discipline :
    (∀ (stk : StkResult) (db : Ledger) (nextId : Nat) (now : Int)
       (donor_id charity_id : Nat) (amount_kes : Int) (phone : String)
       (is_anonymous : Bool) (message : Option String) (r : InitiateOk) (pc : Bool)
       (db' : Ledger),
       initiate_mpesa_donation stk db nextId now donor_id charity_id amount_kes
           phone is_anonymous message = (.ok r, pc, db') →
       r.donation.status = .PENDING ∧ r.donation.mpesa_receipt_number = .none
         ∧ r.donation.failure_reason = .none)
  ∧ (∀ (db : Ledger) (now : Int) (cb : PyVal) (p : ParsedCallback) (d : Donation),
       parse_stk_callback cb = .ok p →
       p.checkout_request_id.truthy = true →
       db.find? (fun x => x.checkout_request_id == p.checkout_request_id) = some d →
       d.status = .PENDING →
       (p.success = true →
         ∃ d' res, process_stk_callback db now cb = .ok (res, replaceById db d.id d')
           ∧ d'.status = .SUCCESS
           ∧ d'.mpesa_receipt_number = p.mpesa_receipt_number
           ∧ d'.failure_reason = d.failure_reason)
       ∧ (p.success = false →
         ∃ d' res, process_stk_callback db now cb = .ok (res, replaceById db d.id d')
           ∧ d'.status = .FAILED
           ∧ d'.failure_reason ≠ .none
           ∧ d'.mpesa_receipt_number = d.mpesa_receipt_number))
  ∧ (∀ (db : Ledger) (nextId : Nat) (now : Int) (donor_id charity_id : Nat)
       (amount_cents : Int) (is_anonymous is_recurring : Bool)
       (message : Option String) (d : Donation) (db' : Ledger),
       create_donation db nextId now donor_id charity_id amount_cents
           is_anonymous is_recurring message = .ok (d, db') →
       d.status = .SUCCESS ∧ d.mpesa_receipt_number = .none
         ∧ d.failure_reason = .none) := by
  refine ⟨?_, ?_, ?_⟩
  · intro stk db nextId now donor_id charity_id amount_kes phone is_anonymous message
      r pc db' h
    unfold initiate_mpesa_donation at h
    by_cases hle : amount_kes ≤ 0
    · rw [if_pos hle] at h
      simp [Prod.ext_iff] at h
    · rw [if_neg hle] at h
      by_cases hs : stk.success = true
      · simp only [hs, if_true] at h
        unfold Donation.make at h
        dsimp only at h
        rw [if_neg (by omega)] at h
        simp only [Prod.mk.injEq, Except.ok.injEq] at h
        obtain ⟨h1, -, -⟩ := h
        rw [← h1]
        exact ⟨rfl, rfl, rfl⟩
      · simp only [Bool.not_eq_true] at hs
        simp [hs, Prod.ext_iff] at h
  · intro db now cb p d hp ht hf hpend
    constructor
    · intro hs
      exact ⟨_, _, process_pending_success_eq db now cb p d hp ht hf hpend hs,
             rfl, rfl, rfl⟩
    · intro hs
      exact ⟨_, _, process_pending_failure_eq db now cb p d hp ht hf hpend hs,
             rfl, defaultIfNone_str_ne_none p.error _, rfl⟩
  · intro db nextId now donor_id charity_id amount_cents is_anonymous is_recurring
      message d db' h
    unfold create_donation Donation.make at h
    dsimp only at h
    by_cases hm : amount_cents ≤ 0
    · rw [if_pos hm] at h
      simp at h
    · rw [if_neg hm] at h
      simp only [Except.ok.injEq, Prod.mk.injEq] at h
      obtain ⟨h1, -⟩ := h
      rw [← h1]
      exact ⟨rfl, rfl, rfl⟩

/-- The row produced by the sample `create_donation` call. -/
def simpleDonationSample : Donation :=
  { id := 1, amount := 5000, donor_id := 7, charity_id := 9,
    status := .SUCCESS, created_at := 0, updated_at := 0 }

/-- Witness for C2 (amended): the sample SUCCESS callback sets the
receipt and leaves `failure_reason` untouched, and the sample
`create_donation` call yields a SUCCESS row with neither field. -/
theorem receipt_and_failure_reason_field_discipline_witness :
    (∃ d' res, process_stk_callback [pendingSample] 200 cbSuccess
        = .ok (res, replaceById [pendingSample] pendingSample.id d')
      ∧ d'.status = .SUCCESS
      ∧ d'.mpesa_receipt_number = PyVal.str "ABC123"
      ∧ d'.failure_reason = pendingSample.failure_reason)
    ∧ (simpleDonationSample.status = .SUCCESS
      ∧ simpleDonationSample.mpesa_receipt_number = .none
      ∧ simpleDonationSample.failure_reason = .none) :=
  ⟨(receipt_and_failure_reason_field_discipline.2.1 [pendingSample] 200 cbSuccess
      { success := true, checkout_request_id := .str "ws_CO_1",
        merchant_request_id := .str "m_1", result_code := .int 0,
        result_desc := .str "The service request is processed successfully.",
        mpesa_receipt_number := .str "ABC123", amount := .int 500,
        phone_number := .str "254712345678", transaction_date := .str "" }
      pendingSample rfl rfl rfl rfl).1 rfl,
   receipt_and_failure_reason_field_discipline.2.2 [] 1 0 7 9 5000 false false
     Option.none simpleDonationSample [simpleDonationSample] rfl⟩

/-- If the first row matching `P` is `d`, then after committing `d'` in
place of the rows with `d`'s id, the first row matching `P` is `d'`
(provided `d'` still matches). -/
theorem find?_replaceById_of_find?
    (db : Ledger) (P : Donation → Bool) (d d' : Donation)
    (h : db.find? P = some d) (hP : P d' = true) :
    (replaceById db d.id d').find? P = some d' := by
  induction db with
  | nil => simp at h
  | cons x xs ih =>
    by_cases hx : x.id = d.id
    · simp [replaceById, hx, List.find?_cons, hP]
    · cases hPx : P x with
      | true =>
        rw [List.find?_cons_of_pos _ hPx] at h
        obtain rfl : x = d := by injection h
        exact absurd rfl hx
      | false =>
        rw [List.find?_cons_of_neg _ (by simp [hPx])] at h
        have := ih h
        simpa [replaceById, hx, List.find?_cons, hPx] using this

/-- After committing `d'` (with `d`'s id) in place of `d`, the first row
with `d`'s id is `d'`. -/
theorem find?_id_replaceById
    (db : Ledger) (d d' : Donation) (hmem : d ∈ db) (hid : d'.id = d.id) :
    (replaceById db d.id d').find? (fun x => x.id == d.id) = some d' := by
  induction db with
  | nil => cases hmem
  | cons x xs ih =>
    by_cases hx : x.id = d.id
    · simp [replaceById, hx, List.find?_cons, hid]
    · have hxs : d ∈ xs := by
        cases hmem with
        | head => exact absurd rfl hx
        | tail _ h => exact h
      have := ih hxs
      simpa [replaceById, hx, List.find?_cons] using this

/-- C6: a donation transitioned to SUCCESS by a callback carrying
`MpesaReceiptNumber` `R` subsequently answers both status queries (by id
and by checkout id, with the owning donor's id) with
`mpesa_receipt_number` exactly `R`. -/
theorem success_callback_receipt_roundtrip
    (db : Ledger) (charities : List Charity) (now : Int) (cb : PyVal)
    (p : ParsedCallback) (d : Donation) (c : String) (R : PyVal)
    (hp : parse_stk_callback cb = .ok p)
    (hcid : p.checkout_request_id = .str c)
    (hc : c ≠ "")
    (hs : p.success = true)
    (hR : p.mpesa_receipt_number = R)
    (hf : db.find? (fun x => x.checkout_request_id == p.checkout_request_id) = some d)
    (hd : d.checkout_request_id = .str c)
    (hpend : d.status = .PENDING) :
    ∃ res db', process_stk_callback db now cb = .ok (res, db')
      ∧ (get_donation_status_by_checkout_route db' charities d.donor_id c).1 = 200
      ∧ jsonGet (get_donation_status_by_checkout_route db' charities d.donor_id c).2
          "mpesa_receipt_number" = some R
      ∧ (get_donation_status_route db' charities d.donor_id d.id).1 = 200
      ∧ jsonGet (get_donation_status_route db' charities d.donor_id d.id).2
          "mpesa_receipt_number" = some R := by
  have ht : p.checkout_request_id.truthy = true := by
    rw [hcid]; simpa [PyVal.truthy] using hc
  have hproc := process_pending_success_eq db now cb p d hp ht hf hpend hs
  set d' : Donation := { d with status := .SUCCESS, mpesa_receipt_number := p.mpesa_receipt_number, updated_at := now } with hreplaced
  refine ⟨_, _, hproc, ?_, ?_, ?_, ?_⟩
  case _ =>
    have hfind : (replaceById db d.id d').find?
        (fun x => x.checkout_request_id == PyVal.str c) = some d' := by
      rw [hcid] at hf
      refine find?_replaceById_of_find? db _ d d' hf ?_
      show (d'.checkout_request_id == PyVal.str c) = true
      simp [hreplaced, hd, BEq.beq, PyVal.beq]
    unfold get_donation_status_by_checkout_route getDonationByCheckout
    rw [hfind]
    simp [hreplaced]
  case _ =>
    have hfind : (replaceById db d.id d').find?
        (fun x => x.checkout_request_id == PyVal.str c) = some d' := by
      rw [hcid] at hf
      refine find?_replaceById_of_find? db _ d d' hf ?_
      show (d'.checkout_request_id == PyVal.str c) = true
      simp [hreplaced, hd, BEq.beq, PyVal.beq]
    unfold get_donation_status_by_checkout_route getDonationByCheckout
    rw [hfind]
    simp only [hreplaced]
    rw [if_neg (by simp)]
    simp [jsonGet, List.find?, hR]
  case _ =>
    have hfind : (replaceById db d.id d').find? (fun x => x.id == d.id) = some d' := by
      exact find?_id_replaceById db d d' (List.mem_of_find?_eq_some hf) rfl
    unfold get_donation_status_route getDonation
    rw [hfind]
    simp [hreplaced]
  case _ =>
    have hfind : (replaceById db d.id d').find? (fun x => x.id == d.id) = some d' := by
      exact find?_id_replaceById db d d' (List.mem_of_find?_eq_some hf) rfl
    unfold get_donation_status_route getDonation
    rw [hfind]
    simp only [hreplaced]
    rw [if_neg (by simp)]
    simp [jsonGet, List.find?, hR]

/-- Witness for C6: the sample SUCCESS callback (receipt `ABC123`) on
the sample PENDING donation; both status queries then return exactly
`ABC123`. -/
theorem success_callback_receipt_roundtrip_witness :
    ∃ res db', process_stk_callback [pendingSample] 200 cbSuccess = .ok (res, db')
      ∧ (get_donation_status_by_checkout_route db' [charitySample] 7 "ws_CO_1").1 = 200
      ∧ jsonGet (get_donation_status_by_checkout_route db' [charitySample] 7 "ws_CO_1").2
          "mpesa_receipt_number" = some (.str "ABC123")
      ∧ (get_donation_status_route db' [charitySample] 7 1).1 = 200
      ∧ jsonGet (get_donation_status_route db' [charitySample] 7 1).2
          "mpesa_receipt_number" = some (.str "ABC123") :=
  success_callback_receipt_roundtrip [pendingSample] [charitySample] 200 cbSuccess
    { success := true, checkout_request_id := .str "ws_CO_1",
      merchant_request_id := .str "m_1", result_code := .int 0,
      result_desc := .str "The service request is processed successfully.",
      mpesa_receipt_number := .str "ABC123", amount := .int 500,
      phone_number := .str "254712345678", transaction_date := .str "" }
    pendingSample "ws_CO_1" (.str "ABC123") rfl rfl (by decide) rfl rfl rfl rfl rfl

/-- C7 (counterexample): Python's `$` matches just before one trailing
newline, so the real `_normalise_phone` accepts `"0712345678\n-"` —
strip removes nothing (the string ends in `-`), deleting the hyphen
leaves a trailing newline, the leading `0` becomes `254`, and
`re.match(r"^254\d{9}$")` succeeds — returning the 13-character,
non-canonical string `"254712345678\n"` instead of rejecting. -/
theorem normalise_phone_noncanonical_on_trailing_newline :
    _normalise_phone (.str "0712345678\n-") = some "254712345678\n"
    ∧ ("254712345678\n" : String).data.length ≠ 12 :=
  ⟨by decide, by decide⟩

/-- C7 (amended): `_normalise_phone` returns either `254` followed by 9
Unicode decimal digits (12 characters), or — because `$` tolerates one
trailing newline — that form followed by a single `"\n"` (13
characters); `MpesaClient._normalize_phone` returns only 12-character
strings beginning `254` whose remainder satisfies `str.isdigit()`; and
the initiation route fires the provider call only when
`_normalise_phone` accepted the raw `phone_number` value of the request
body (a rejected phone fails the request before any provider call). -/
theorem phone_normalisation_shape_or_reject :
    (∀ (raw : PyVal) (s : String), _normalise_phone raw = some s →
      s.data.take 3 = ['2', '5', '4']
        ∧ ((s.data.length = 12 ∧ (s.data.drop 3).all reDigit = true)
           ∨ (s.data.length = 13 ∧ ((s.data.drop 3).take 9).all reDigit = true
              ∧ s.data.drop 12 = ['\n'])))
  ∧ (∀ (phone : String) (s : String), mpesa_normalize_phone phone = some s →
      s.data.length = 12 ∧ s.data.take 3 = ['2', '5', '4']
        ∧ (s.data.drop 3).all isdigitChar = true)
  ∧ (∀ (user_id : Nat) (data : PyVal) (charities : List Charity)
       (mpesa_configured : Bool) (stk : StkResult) (db : Ledger)
       (nextId : Nat) (now : Int),
      (initiate_mpesa_donation_route user_id data charities mpesa_configured
          stk db nextId now).providerCalled = true →
      ∃ v s, data.getOpt "phone_number" = .ok v ∧ _normalise_phone v = some s) := by
  refine ⟨?_, ?_, ?_⟩
  · intro raw s h
    unfold _normalise_phone at h
    dsimp only at h
    split at h
    case isTrue hm =>
      injection h with h2
      subst h2
      simp only [phoneRegexMatch, Bool.and_eq_true, Bool.or_eq_true,
        beq_iff_eq] at hm
      obtain ⟨htake, hm⟩ := hm
      refine ⟨htake, ?_⟩
      cases hm with
      | inl h12 => exact Or.inl ⟨h12.1, h12.2⟩
      | inr h13 => exact Or.inr ⟨h13.1.1, h13.1.2, h13.2⟩
    case isFalse hm => cases h
  · intro phone s h
    unfold mpesa_normalize_phone at h
    dsimp only at h
    split at h
    · cases h
    · split at h
      · cases h
      · split at h
        case isTrue hm =>
          injection h with h2
          subst h2
          simp only [pyIsDigit, Bool.and_eq_true, beq_iff_eq] at hm
          obtain ⟨⟨hlen, htake⟩, -, hdrop⟩ := hm
          exact ⟨hlen, htake, hdrop⟩
        case isFalse hm => cases h
  · intro user_id data charities mpesa_configured stk db nextId now h
    unfold initiate_mpesa_donation_route at h
    split at h
    · simp at h
    · cases hq1 : data.getOpt "charity_id" with
      | error e => rw [hq1] at h; simp at h
      | ok charity_id =>
        rw [hq1] at h
        cases hq2 : data.getOpt "amount" with
        | error e => rw [hq2] at h; simp at h
        | ok amount =>
          rw [hq2] at h
          cases hq3 : data.getOpt "phone_number" with
          | error e => rw [hq3] at h; simp at h
          | ok phone_raw =>
            rw [hq3] at h
            dsimp only at h
            split at h
            · simp at h
            · cases hq4 : pyFloatCheck amount with
              | notNumeric => rw [hq4] at h; simp at h
              | fractional pos =>
                rw [hq4] at h
                dsimp only at h
                split at h <;> simp at h
              | whole amount_num =>
                rw [hq4] at h
                dsimp only at h
                split at h
                · simp at h
                · cases hq5 : _normalise_phone phone_raw with
                  | none => rw [hq5] at h; simp at h
                  | some ph => exact ⟨phone_raw, ph, rfl, hq5⟩

/-- A valid initiation request body. -/
def initiateBodySample : PyVal :=
  .dict [("charity_id", .int 9), ("amount", .int 500),
         ("phone_number", .str "0712345678")]

/-- Witness for C7 (amended): `0712345678` normalises to the canonical
12-character form, and the sample initiation request (which does fire
the provider call) carries a phone accepted by `_normalise_phone`. -/
theorem phone_normalisation_shape_or_reject_witness :
    (("254712345678" : String).data.take 3 = ['2', '5', '4']
      ∧ ((("254712345678" : String).data.length = 12
          ∧ (("254712345678" : String).data.drop 3).all reDigit = true)
         ∨ (("254712345678" : String).data.length = 13
            ∧ ((("254712345678" : String).data.drop 3).take 9).all reDigit = true
            ∧ ("254712345678" : String).data.drop 12 = ['\n'])))
    ∧ (∃ v s, initiateBodySample.getOpt "phone_number" = .ok v
        ∧ _normalise_phone v = some s) :=
  ⟨phone_normalisation_shape_or_reject.1 (.str "0712345678") "254712345678"
     (by decide),
   phone_normalisation_shape_or_reject.2.2 7 initiateBodySample [charitySample]
     true stkOkSample [] 1 0 (by decide)⟩

/-- C8 (counterexample): for a FAILED donation with a stored
`failure_reason`, the by-id status endpoint answers 200 but its response
carries no `failure_reason` field at all, contradicting the claimed
projection. -/
theorem get_donation_status_omits_failure_reason :
    (get_donation_status_route [failedSample] [charitySample] 7 1).1 = 200
    ∧ failedSample.failure_reason = .str "Request cancelled by user"
    ∧ jsonGet (get_donation_status_route [failedSample] [charitySample] 7 1).2
        "failure_reason" = Option.none :=
  ⟨rfl, rfl, rfl⟩

/-- C8 (amended): a status query returns NotFound when no donation
matches or the matching donation belongs to a different donor; otherwise
it returns 200 with the current status, `mpesa_receipt_number`, amount
and charity display name — `failure_reason` is included only by the
by-checkout endpoint, not the by-id endpoint.  (Both handlers are pure
reads by construction: they take the ledger and return only a
response.) -/
theorem status_query_projection :
    (∀ (db : Ledger) (charities : List Charity) (user_id donation_id : Nat),
      (getDonation db donation_id = Option.none →
        get_donation_status_route db charities user_id donation_id
          = not_found "Donation not found")
      ∧ (∀ d, getDonation db donation_id = some d → d.donor_id ≠ user_id →
        get_donation_status_route db charities user_id donation_id
          = not_found "Donation not found")
      ∧ (∀ d, getDonation db donation_id = some d → d.donor_id = user_id →
        get_donation_status_route db charities user_id donation_id =
          (200, .dict
            [("id", .int d.id), ("status", d.status.toPy),
             ("mpesa_receipt_number", d.mpesa_receipt_number),
             ("amount", .int d.amount),
             ("charity_name",
              match donationCharity charities d with
              | some c => .str c.name
              | Option.none => .none)])
        ∧ jsonGet (get_donation_status_route db charities user_id donation_id).2
            "failure_reason" = Option.none))
  ∧ (∀ (db : Ledger) (charities : List Charity) (user_id : Nat)
       (checkout_id : String),
      (getDonationByCheckout db checkout_id = Option.none →
        get_donation_status_by_checkout_route db charities user_id checkout_id
          = not_found "Donation not found")
      ∧ (∀ d, getDonationByCheckout db checkout_id = some d → d.donor_id ≠ user_id →
        get_donation_status_by_checkout_route db charities user_id checkout_id
          = not_found "Donation not found")
      ∧ (∀ d, getDonationByCheckout db checkout_id = some d → d.donor_id = user_id →
        get_donation_status_by_checkout_route db charities user_id checkout_id =
          (200, .dict
            [("id", .int d.id), ("status", d.status.toPy),
             ("mpesa_receipt_number", d.mpesa_receipt_number),
             ("amount", .int d.amount),
             ("charity_name",
              match donationCharity charities d with
              | some c => .str c.name
              | Option.none => .none),
             ("created_at", .int d.created_at),
             ("failure_reason", d.failure_reason)])
        ∧ jsonGet (get_donation_status_by_checkout_route db charities user_id
              checkout_id).2 "failure_reason" = some d.failure_reason)) := by
  constructor
  · intro db charities user_id donation_id
    refine ⟨?_, ?_, ?_⟩
    · intro hnone
      unfold get_donation_status_route
      rw [hnone]
    · intro d hd hown
      unfold get_donation_status_route
      rw [hd]
      dsimp only
      rw [if_pos hown]
    · intro d hd hown
      have hmain : get_donation_status_route db charities user_id donation_id =
          (200, .dict
            [("id", .int d.id), ("status", d.status.toPy),
             ("mpesa_receipt_number", d.mpesa_receipt_number),
             ("amount", .int d.amount),
             ("charity_name",
              match donationCharity charities d with
              | some c => .str c.name
              | Option.none => .none)]) := by
        unfold get_donation_status_route
        rw [hd]
        dsimp only
        rw [if_neg (by simp [hown])]
      refine ⟨hmain, ?_⟩
      rw [hmain]
      rfl
  · intro db charities user_id checkout_id
    refine ⟨?_, ?_, ?_⟩
    · intro hnone
      unfold get_donation_status_by_checkout_route
      rw [hnone]
    · intro d hd hown
      unfold get_donation_status_by_checkout_route
      rw [hd]
      dsimp only
      rw [if_pos hown]
    · intro d hd hown
      have hmain : get_donation_status_by_checkout_route db charities user_id
            checkout_id =
          (200, .dict
            [("id", .int d.id), ("status", d.status.toPy),
             ("mpesa_receipt_number", d.mpesa_receipt_number),
             ("amount", .int d.amount),
             ("charity_name",
              match donationCharity charities d with
              | some c => .str c.name
              | Option.none => .none),
             ("created_at", .int d.created_at),
             ("failure_reason", d.failure_reason)]) := by
        unfold get_donation_status_by_checkout_route
        rw [hd]
        dsimp only
        rw [if_neg (by simp [hown])]
      refine ⟨hmain, ?_⟩
      rw [hmain]
      rfl

/-- Witness for C8 (amended): the FAILED sample donation queried by
checkout id returns its `failure_reason`; queried by id it returns the
200 projection (whose body the counterexample shows lacks
`failure_reason`). -/
theorem status_query_projection_witness :
    (get_donation_status_by_checkout_route [failedSample] [charitySample] 7 "ws_CO_1" =
        (200, .dict
          [("id", .int failedSample.id), ("status", failedSample.status.toPy),
           ("mpesa_receipt_number", failedSample.mpesa_receipt_number),
           ("amount", .int failedSample.amount),
           ("charity_name",
            match donationCharity [charitySample] failedSample with
            | some c => .str c.name
            | Option.none => .none),
           ("created_at", .int failedSample.created_at),
           ("failure_reason", failedSample.failure_reason)])
      ∧ jsonGet (get_donation_status_by_checkout_route [failedSample] [charitySample]
            7 "ws_CO_1").2 "failure_reason" = some failedSample.failure_reason)
    ∧ get_donation_status_route [failedSample] [charitySample] 9 1 =
        not_found "Donation not found" :=
  ⟨(status_query_projection.2 [failedSample] [charitySample] 7 "ws_CO_1").2.2
     failedSample rfl rfl,
   (status_query_projection.1 [failedSample] [charitySample] 9 1).2.1
     failedSample rfl (by decide)⟩

/-- C9: with credentials configured, `get_mpesa_access_token` skips the
HTTP call iff a cached token exists and `now` is strictly before the
cached expiry minus the 60 s margin (returning the cached token
unchanged); otherwise it performs the exchange and either stores
`now + expires_in` returning the fresh token, or raises a provider-auth
error when the endpoint is unreachable or the response carries no
token. -/
theorem token_cache_refresh_policy
    (cache : TokenCache) (now : Int) (key secret : String)
    (http : Except String OAuthResponse)
    (hkey : key ≠ "") (hsecret : secret ≠ "") :
    ((get_mpesa_access_token cache now key secret http).2.2 = false
      ↔ cache.access_token.truthy = true ∧ now < cache.expires_at - 60)
  ∧ (cache.access_token.truthy = true → now < cache.expires_at - 60 →
      get_mpesa_access_token cache now key secret http =
        (.ok cache.access_token, cache, false))
  ∧ (∀ resp e,
      ¬(cache.access_token.truthy = true ∧ now < cache.expires_at - 60) →
      http = .ok resp → resp.access_token.truthy = true →
      resp.expires_in = some e →
      get_mpesa_access_token cache now key secret http =
        (.ok resp.access_token,
         { access_token := resp.access_token, expires_at := now + e }, true))
  ∧ (∀ msg,
      ¬(cache.access_token.truthy = true ∧ now < cache.expires_at - 60) →
      http = .error msg →
      get_mpesa_access_token cache now key secret http =
        (.error (.runtimeError ("Failed to obtain M-Pesa access token: " ++ msg)),
         cache, true))
  ∧ (∀ resp,
      ¬(cache.access_token.truthy = true ∧ now < cache.expires_at - 60) →
      http = .ok resp → resp.access_token.truthy = false →
      get_mpesa_access_token cache now key secret http =
        (.error (.runtimeError "Daraja response did not contain an access_token"),
         cache, true)) := by
  have hks : ¬(key = "" ∨ secret = "") := by
    rintro (h | h)
    · exact hkey h
    · exact hsecret h
  refine ⟨?_, ?_, ?_, ?_, ?_⟩
  · by_cases hc : cache.access_token.truthy = true ∧ cache.expires_at - 60 > now
    · unfold get_mpesa_access_token
      rw [if_pos hc]
      simpa using hc
    · unfold get_mpesa_access_token
      rw [if_neg hc, if_neg hks]
      constructor
      · intro hfalse
        exfalso
        cases http with
        | error msg => simp at hfalse
        | ok resp =>
          revert hfalse
          dsimp only
          split <;> simp
      · intro hcond
        exact absurd (by exact ⟨hcond.1, hcond.2⟩) hc
  · intro h1 h2
    unfold get_mpesa_access_token
    rw [if_pos ⟨h1, h2⟩]
  · intro resp e hc hhttp htok hexp
    unfold get_mpesa_access_token
    rw [if_neg hc, if_neg hks, hhttp]
    dsimp only
    rw [if_pos htok, hexp]
    rfl
  · intro msg hc hhttp
    unfold get_mpesa_access_token
    rw [if_neg hc, if_neg hks, hhttp]
  · intro resp hc hhttp htok
    unfold get_mpesa_access_token
    rw [if_neg hc, if_neg hks, hhttp]
    dsimp only
    rw [if_neg (by simp [htok])]

/-- Witness for C9: a fresh cache with a valid cached token returns the
cached token without an HTTP call, and a cold cache performs the
exchange and stores `now + expires_in`. -/
theorem token_cache_refresh_policy_witness :
    get_mpesa_access_token { access_token := .str "tok", expires_at := 1000 }
        500 "ck" "cs" (.error "unreachable") =
      (.ok (.str "tok"), { access_token := .str "tok", expires_at := 1000 }, false)
    ∧ get_mpesa_access_token { access_token := .none, expires_at := 0 }
        500 "ck" "cs" (.ok { access_token := .str "fresh", expires_in := some 3599 }) =
      (.ok (.str "fresh"), { access_token := .str "fresh", expires_at := 500 + 3599 },
       true) :=
  ⟨(token_cache_refresh_policy { access_token := .str "tok", expires_at := 1000 }
      500 "ck" "cs" (.error "unreachable") (by decide) (by decide)).2.1
      (by decide) (by decide),
   (token_cache_refresh_policy { access_token := .none, expires_at := 0 }
      500 "ck" "cs" (.ok { access_token := .str "fresh", expires_in := some 3599 })
      (by decide) (by decide)).2.2.1
      { access_token := .str "fresh", expires_in := some 3599 } 3599
      (by simp [PyVal.truthy]) rfl (by decide) rfl⟩
